import Mathlib

/-!
Shallow embedding of bionic's shared-memory system-property store
(`libc/system_properties/system_properties.cpp`, class `SystemProperties`).

Byte strings (property names, values, buffer contents) are modelled as
`List Nat` (one `Nat` per byte, `0` = NUL).  The store's environment that
lives outside this translation unit (the `prop_area` header with its
area-serial word and dirty-backup buffer, and the `Contexts` router) is
modelled from the specification: the router is a function from names to an
optional area id (`none` = access denied / null `prop_area*`), and each
area id maps to a `PropArea` state.  The single-writer seqlock code itself
is translated statement by statement from the source; since the embedding
is sequential, the two serial loads of the reader's retry loop always
agree, so the loop body executes exactly once per call.
-/

namespace SystemProperties

/-- PROP_NAME_MAX: a property name is at most 31 bytes plus its NUL. -/
def PROP_NAME_MAX : Nat := 32

/-- PROP_VALUE_MAX: a mutable value is at most 91 bytes plus its NUL. -/
def PROP_VALUE_MAX : Nat := 92

/-- Bytes of a Lean string literal, as the contents of the C string
(terminating NUL not included). -/
def str (s : String) : List Nat := s.toList.map Char.toNat

/-- strlen over a byte list: index of the first NUL byte (the whole length
when no byte is 0). -/
def cstrLen : List Nat → Nat
  | [] => 0
  | b :: bs => if b = 0 then 0 else cstrLen bs + 1

/-- The C string held in a buffer: every byte before the first NUL. -/
def cstr (bs : List Nat) : List Nat := bs.take (cstrLen bs)

/-- bionic strlcpy(dst, src, size): writes min(strlen(src), size-1) bytes of
src and a NUL into dst, leaves the rest of dst untouched; with size = 0 it
writes nothing. -/
def strlcpy (dst src : List Nat) (size : Nat) : List Nat :=
  if size = 0 then dst
  else
    let n := min (cstrLen src) (size - 1)
    src.take n ++ [0] ++ dst.drop (n + 1)

/-- Bytes strlcpy deposits into a fresh destination buffer of the given
size (used for the caller's name buffer in `Read`). -/
def strlcpyOut (src : List Nat) (size : Nat) : List Nat :=
  if size = 0 then []
  else src.take (min (cstrLen src) (size - 1)) ++ [0]

/-- SERIAL_DIRTY(serial) = serial & 1. -/
def SERIAL_DIRTY (serial : Nat) : Nat := serial &&& 1

/-- SERIAL_VALUE_LEN(serial) = serial >> 24. -/
def SERIAL_VALUE_LEN (serial : Nat) : Nat := serial >>> 24

/-- is_read_only(name): strncmp(name, "ro.", 3) == 0, i.e. the stored name
begins with the three bytes `r` `o` `.`. -/
def is_read_only (name : List Nat) : Bool := (str "ro.").isPrefixOf name

/-- One `prop_info` record: the stored name, the 32-bit seqlock serial
word, the inline value buffer, and the long-value data used by read-only
properties.  The record is handled by value in the embedding; an operation
that mutates it in place returns the updated record. -/
structure PropInfo where
  name : List Nat
  serial : Nat
  value : List Nat
  is_long : Bool
  long_value : List Nat

/-- Modelled from the spec: one `prop_area` as far as the store code
touches it — the 32-bit area-serial word at its head, the dirty-backup
buffer of the header, an abstract capacity predicate standing for
`prop_area::add`'s ability to accommodate a record, and the slab of
records added so far. -/
structure PropArea where
  serial : Nat
  dirtyBackup : List Nat
  addOk : List Nat → Nat → List Nat → Nat → Bool
  records : List (List Nat × List Nat)

/-- Modelled from the spec: the store state — the `initialized_` flag, the
Contexts router `GetPropAreaForName` (none = denied / null area), the
`GetSerialPropArea` result, and the state of every area. -/
structure Store where
  initialized : Bool
  route : List Nat → Option Nat
  serialAreaId : Option Nat
  areas : Nat → PropArea

/-- Functional update of one area of the store. -/
def Store.setArea (st : Store) (i : Nat) (pa : PropArea) : Store :=
  { st with areas := fun j => if j = i then pa else st.areas j }

/-- SystemProperties::ReadMutablePropertyValue.  Sequential rendering of
the seqlock reader: the serial word cannot change between the two loads of
an iteration, so the retry loop runs its body once.  The result is the
returned serial together with the `len+1` bytes the memcpy deposits in the
caller's value buffer.  When the dirty bit is set the source dereferences
`contexts_->GetPropAreaForName(pi->name)` without a null check; a `none`
route in that branch is undefined behaviour, rendered as `none`. -/
def ReadMutablePropertyValue (st : Store) (pi : PropInfo) :
    Option (Nat × List Nat) :=
  let serial := pi.serial
  let len := SERIAL_VALUE_LEN serial
  if SERIAL_DIRTY serial ≠ 0 then
    match st.route pi.name with
    | none => none
    | some aid => some (serial, (st.areas aid).dirtyBackup.take (len + 1))
  else
    some (serial, pi.value.take (len + 1))

/-- SystemProperties::Read.  Returns the value length taken from the
serial, the bytes written into the caller's value buffer, and (when a name
buffer was passed) the bytes strlcpy wrote into it.  The diagnostic log
lines have no effect on the result and are omitted. -/
def Read (st : Store) (pi : PropInfo) (wantName : Bool) :
    Option (Nat × List Nat × Option (List Nat)) :=
  match ReadMutablePropertyValue st pi with
  | none => none
  | some (serial, valueOut) =>
      let nameOut :=
        if wantName then some (strlcpyOut pi.name PROP_NAME_MAX) else none
      some (SERIAL_VALUE_LEN serial, valueOut, nameOut)

/-- SystemProperties::Update, translated check by check from the source:
the length gate, the `initialized_` gate, the serial-area and router
lookups, then the writer protocol — back up `old_len+1` bytes of the
inline value into the area's dirty-backup buffer, set the dirty bit with
`serial |= 1`, strlcpy the new value, store the final serial
`(len << 24) | ((serial + 1) & 0xffffff)` (where `serial` carries the
dirty bit at that point), and bump the serial area's word by one (32-bit
wraparound).  Futex wakes have no effect on the state. -/
def Update (st : Store) (pi : PropInfo) (value : List Nat) (len : Nat) :
    Int × Store × PropInfo :=
  if PROP_VALUE_MAX ≤ len then (-1, st, pi)
  else if !st.initialized then (-1, st, pi)
  else
    match st.serialAreaId with
    | none => (-1, st, pi)
    | some sid =>
      match st.route pi.name with
      | none => (-1, st, pi)
      | some aid =>
        let serial0 := pi.serial
        let old_len := SERIAL_VALUE_LEN serial0
        let pa := st.areas aid
        let st1 := st.setArea aid
          { pa with dirtyBackup :=
              pi.value.take (old_len + 1) ++ pa.dirtyBackup.drop (old_len + 1) }
        let serial1 := serial0 ||| 1
        let pi1 := { pi with serial := serial1 }
        let pi2 := { pi1 with value := strlcpy pi1.value value (len + 1) }
        let pi3 := { pi2 with
          serial := (len <<< 24) ||| ((serial1 + 1) &&& 0xffffff) }
        let spa := st1.areas sid
        let st2 := st1.setArea sid
          { spa with serial := (spa.serial + 1) % 4294967296 }
        (0, st2, pi3)

/-- The value-length gate at the head of SystemProperties::Add:
`valuelen >= PROP_VALUE_MAX && !is_read_only(name)`. -/
def addValueCapFails (name : List Nat) (valuelen : Nat) : Bool :=
  decide (PROP_VALUE_MAX ≤ valuelen) && !(is_read_only name)

/-- SystemProperties::Add: the value-length gate, the `namelen < 1` gate,
the `initialized_` gate, the serial-area and router lookups, then
`pa->add` (abstract capacity check; on success the record joins the slab)
followed by the area-serial bump of the serial area. -/
def Add (st : Store) (name : List Nat) (namelen : Nat) (value : List Nat)
    (valuelen : Nat) : Int × Store :=
  if addValueCapFails name valuelen then (-1, st)
  else if namelen < 1 then (-1, st)
  else if !st.initialized then (-1, st)
  else
    match st.serialAreaId with
    | none => (-1, st)
    | some sid =>
      match st.route name with
      | none => (-1, st)
      | some aid =>
        let pa := st.areas aid
        if pa.addOk name namelen value valuelen then
          let st1 := st.setArea aid
            { pa with records := pa.records ++ [(name, value)] }
          let spa := st1.areas sid
          let st2 := st1.setArea sid
            { spa with serial := (spa.serial + 1) % 4294967296 }
          (0, st2)
        else (-1, st)

/-- One iteration's worth of environment for the futex loop in
SystemProperties::Wait: the return code of `__futex_wait` and the serial
value the subsequent acquire load observes. -/
structure FutexEvent where
  rc : Int
  loaded : Nat

/-- ETIMEDOUT. -/
def ETIMEDOUT : Int := 110

/-- The do/while futex loop of SystemProperties::Wait, driven by a trace
of futex outcomes.  `some (false, none)` is the timeout return (nothing
stored), `some (true, some n)` is the success return after storing `n`
into `*new_serial_ptr`, `none` means the trace ended with the call still
blocked. -/
def waitLoop (old : Nat) : List FutexEvent → Option (Bool × Option Nat)
  | [] => none
  | e :: rest =>
    if e.rc ≠ 0 ∧ e.rc = -ETIMEDOUT then some (false, none)
    else if e.loaded = old then waitLoop old rest
    else some (true, some e.loaded)

/-- SystemProperties::Wait.  With `pi = none` the source checks
`initialized_` and the serial area and on failure executes `return -1;`
inside a function whose return type is bool: the int −1 converts to
`true`, and `*new_serial_ptr` is never written — rendered as
`some (true, none)`.  Otherwise the futex loop runs over the supplied
trace of futex outcomes. -/
def Wait (st : Store) (pi : Option PropInfo) (old : Nat)
    (events : List FutexEvent) : Option (Bool × Option Nat) :=
  match pi with
  | none =>
    if !st.initialized then some (true, none)
    else
      match st.serialAreaId with
      | none => some (true, none)
      | some _ => waitLoop old events
  | some _ => waitLoop old events

/-- The uid test of the ReadCallback substitution lambda:
`(uid >= 10000 && uid <= 19999) || (uid >= 90000 && uid <= 99999)`. -/
def uidInRange (uid : Nat) : Prop :=
  (10000 ≤ uid ∧ uid ≤ 19999) ∨ (90000 ≤ uid ∧ uid ≤ 99999)

instance uidInRangeDecidable (uid : Nat) : Decidable (uidInRange uid) := by
  unfold uidInRange
  infer_instance

/-- The hard-coded substitution lambda inside
SystemProperties::ReadCallback: for a caller uid in [10000,19999] or
[90000,99999] it replaces the value passed to `callback2` for five fixed
property names; every other (uid, name) pair passes the observed value
through.  The serial is forwarded unchanged in every case. -/
def substituteForUid (uid : Nat) (name value : List Nat) (serial : Nat) :
    List Nat × List Nat × Nat :=
  if uidInRange uid then
    if name = str "init.svc.adbd" then (name, str "stopped", serial)
    else if name = str "sys.usb.configfs" then (name, str "0", serial)
    else if name = str "persist.sys.usb.config" ∨ name = str "sys.usb.config"
        ∨ name = str "sys.usb.state" then (name, str "none", serial)
    else (name, value, serial)
  else (name, value, serial)

/-- The stored value and serial ReadCallback observes before the
substitution layer: read-only records are read directly (long value or
inline value, serial loaded relaxed), mutable records go through the
seqlock reader. -/
def observedValueSerial (st : Store) (pi : PropInfo) :
    Option (List Nat × Nat) :=
  if is_read_only pi.name then
    some ((if pi.is_long then pi.long_value else cstr pi.value), pi.serial)
  else
    match ReadMutablePropertyValue st pi with
    | none => none
    | some (serial, buf) => some (cstr buf, serial)

/-- SystemProperties::ReadCallback, as the (name, value, serial) triple
`callback2` receives: the observed value and serial, filtered through the
uid-conditional substitution. -/
def ReadCallback (st : Store) (uid : Nat) (pi : PropInfo) :
    Option (List Nat × List Nat × Nat) :=
  match observedValueSerial st pi with
  | none => none
  | some (v, s) => some (substituteForUid uid pi.name v s)

/-! Concrete fixtures used to instantiate the theorems. -/

/-- An area whose serial word is 5 and whose dirty-backup buffer holds 92
bytes of value 7. -/
def paEx : PropArea :=
  { serial := 5, dirtyBackup := List.replicate 92 7,
    addOk := fun _ _ _ _ => true, records := [] }

/-- An initialized store routing every name to area 0, with area 0 also
serving as the serial area. -/
def stEx : Store :=
  { initialized := true, route := fun _ => some 0,
    serialAreaId := some 0, areas := fun _ => paEx }

/-- An uninitialized store with a denying router and no serial area. -/
def stUninit : Store :=
  { initialized := false, route := fun _ => none,
    serialAreaId := none, areas := fun _ => paEx }

/-- An initialized store whose GetSerialPropArea returns null. -/
def stNoSerialArea : Store :=
  { initialized := true, route := fun _ => some 0,
    serialAreaId := none, areas := fun _ => paEx }

/-- A store identical to `stEx` except that the serial area's 32-bit word
sits at its maximum value 2^32 − 1. -/
def stWrap : Store :=
  { initialized := true, route := fun _ => some 0,
    serialAreaId := some 0,
    areas := fun _ =>
      { serial := 4294967295, dirtyBackup := List.replicate 92 7,
        addOk := fun _ _ _ _ => true, records := [] } }

/-- A mutable record `a.b` in the quiescent state with the empty value. -/
def piEx : PropInfo :=
  { name := str "a.b", serial := 0, value := List.replicate 92 0,
    is_long := false, long_value := [] }

/-- A mutable record whose serial word has the dirty bit set (a writer is
mid-update). -/
def piDirty : PropInfo :=
  { name := str "a.b", serial := 1, value := List.replicate 92 0,
    is_long := false, long_value := [] }

/-- A read-only record `ro.build.id` holding the value `ABC`. -/
def piRo : PropInfo :=
  { name := str "ro.build.id", serial := 3 <<< 24,
    value := str "ABC" ++ [0] ++ List.replicate 88 0,
    is_long := false, long_value := [] }

/-- A mutable record `init.svc.adbd` holding the value `running`. -/
def piAdbd : PropInfo :=
  { name := str "init.svc.adbd", serial := 7 <<< 24,
    value := str "running" ++ [0] ++ List.replicate 84 0,
    is_long := false, long_value := [] }

/-! Helper lemmas about the byte-string and bit-level primitives. -/

theorem cstrLen_eq_length {v : List Nat} (h : ∀ b ∈ v, b ≠ 0) :
    cstrLen v = v.length := by
  induction v with
  | nil => rfl
  | cons b bs ih =>
      have hb : b ≠ 0 := h b (List.mem_cons_self b bs)
      simp only [cstrLen, List.length_cons, if_neg hb]
      rw [ih (fun x hx => h x (List.mem_cons_of_mem b hx))]

theorem strlcpy_exact (dst v : List Nat) (len : Nat) (hlen : v.length = len)
    (hz : ∀ b ∈ v, b ≠ 0) :
    strlcpy dst v (len + 1) = v ++ [0] ++ dst.drop (len + 1) := by
  have hc : cstrLen v = len := by rw [cstrLen_eq_length hz, hlen]
  have ht : v.take len = v := by rw [← hlen]; exact List.take_length v
  unfold strlcpy
  rw [if_neg (by omega : ¬ len + 1 = 0)]
  simp only [Nat.add_sub_cancel, hc, Nat.min_self, ht]

theorem lor_one_mod_two (x : Nat) : (x ||| 1) % 2 = 1 := by
  rw [Nat.or_mod_two_eq_one]; exact Or.inr rfl

theorem mask24_eq_mod (y : Nat) : y &&& 0xffffff = y % 16777216 := by
  have h := Nat.and_pow_two_sub_one_eq_mod y 24
  norm_num at h
  exact h

theorem shiftLeft24_lor_eq (a m : Nat) (hm : m < 16777216) :
    (a <<< 24) ||| m = a * 16777216 + m := by
  have h2 : m < 2 ^ 24 := by norm_num; exact hm
  have h := (Nat.mul_add_lt_is_or h2 a).symm
  rw [Nat.shiftLeft_eq]
  calc a * 2 ^ 24 ||| m = 2 ^ 24 * a ||| m := by rw [Nat.mul_comm]
    _ = 2 ^ 24 * a + m := h
    _ = a * 16777216 + m := by rw [Nat.mul_comm]

/-- The serial stored at the end of a successful Update has the dirty bit
clear and carries the new length in its top byte. -/
theorem updated_serial_spec (s len : Nat) :
    ((len <<< 24) ||| (((s ||| 1) + 1) &&& 0xffffff)) % 2 = 0 ∧
    SERIAL_VALUE_LEN ((len <<< 24) ||| (((s ||| 1) + 1) &&& 0xffffff)) = len := by
  have hmod : ((s ||| 1) + 1) &&& 0xffffff = ((s ||| 1) + 1) % 16777216 :=
    mask24_eq_mod _
  have hlt : ((s ||| 1) + 1) % 16777216 < 16777216 := Nat.mod_lt _ (by norm_num)
  have hdec : (len <<< 24) ||| (((s ||| 1) + 1) &&& 0xffffff)
      = len * 16777216 + ((s ||| 1) + 1) % 16777216 := by
    rw [hmod]; exact shiftLeft24_lor_eq _ _ hlt
  have hpar : (s ||| 1) % 2 = 1 := lor_one_mod_two s
  constructor
  · rw [hdec]; omega
  · rw [SERIAL_VALUE_LEN, hdec, Nat.shiftRight_eq_div_pow]
    norm_num
    omega

/-- Case analysis of SystemProperties::Update: either one of the four
early gates fires, the call returns −1 and the state is untouched, or the
call succeeds, rewrites the record's serial and value per the writer
protocol and bumps the serial area's 32-bit word by one. -/
theorem Update_spec (st : Store) (pi : PropInfo) (v : List Nat) (len : Nat) :
    ((Update st pi v len).1 = -1 ∧ (Update st pi v len).2.1 = st
      ∧ (Update st pi v len).2.2 = pi
      ∧ (PROP_VALUE_MAX ≤ len ∨ st.initialized = false
          ∨ st.serialAreaId = none ∨ st.route pi.name = none))
    ∨ (∃ sid aid, st.serialAreaId = some sid ∧ st.route pi.name = some aid
        ∧ len < PROP_VALUE_MAX ∧ st.initialized = true
        ∧ (Update st pi v len).1 = 0
        ∧ (Update st pi v len).2.2 = { pi with
            serial := (len <<< 24) ||| (((pi.serial ||| 1) + 1) &&& 0xffffff),
            value := strlcpy pi.value v (len + 1) }
        ∧ (((Update st pi v len).2.1).areas sid).serial
            = ((st.areas sid).serial + 1) % 4294967296) := by
  unfold Update
  split
  · next h => exact Or.inl ⟨rfl, rfl, rfl, Or.inl h⟩
  · next h =>
    split
    · next h2 => exact Or.inl ⟨rfl, rfl, rfl, Or.inr (Or.inl (by simpa using h2))⟩
    · next h2 =>
      split
      · next heq => exact Or.inl ⟨rfl, rfl, rfl, Or.inr (Or.inr (Or.inl heq))⟩
      · next sid heq =>
        split
        · next heq2 => exact Or.inl ⟨rfl, rfl, rfl, Or.inr (Or.inr (Or.inr heq2))⟩
        · next aid heq2 =>
          refine Or.inr ⟨sid, aid, heq, heq2, by omega, by simpa using h2, rfl, rfl, ?_⟩
          simp only [Store.setArea]
          by_cases hsa : sid = aid <;> simp [hsa]

/-- Case analysis of SystemProperties::Add: either one of the gates fires
(value-length cap for non-read-only names, empty name, uninitialized
store, missing serial area, router denial, or `prop_area::add` failure),
the call returns −1 with the state untouched, or it succeeds and bumps
the serial area's 32-bit word by one. -/
theorem Add_spec (st : Store) (name : List Nat) (namelen : Nat)
    (v : List Nat) (valuelen : Nat) :
    ((Add st name namelen v valuelen).1 = -1
      ∧ (Add st name namelen v valuelen).2 = st
      ∧ (addValueCapFails name valuelen = true ∨ namelen < 1
          ∨ st.initialized = false ∨ st.serialAreaId = none
          ∨ st.route name = none
          ∨ ∃ aid, st.route name = some aid
              ∧ (st.areas aid).addOk name namelen v valuelen = false))
    ∨ (∃ sid aid, st.serialAreaId = some sid ∧ st.route name = some aid
        ∧ addValueCapFails name valuelen = false ∧ ¬ namelen < 1
        ∧ st.initialized = true
        ∧ (st.areas aid).addOk name namelen v valuelen = true
        ∧ (Add st name namelen v valuelen).1 = 0
        ∧ (((Add st name namelen v valuelen).2).areas sid).serial
            = ((st.areas sid).serial + 1) % 4294967296) := by
  unfold Add
  split
  · next h => exact Or.inl ⟨rfl, rfl, Or.inl h⟩
  · next h =>
    split
    · next h2 => exact Or.inl ⟨rfl, rfl, Or.inr (Or.inl h2)⟩
    · next h2 =>
      split
      · next h3 => exact Or.inl ⟨rfl, rfl, Or.inr (Or.inr (Or.inl (by simpa using h3)))⟩
      · next h3 =>
        split
        · next heq =>
          exact Or.inl ⟨rfl, rfl, Or.inr (Or.inr (Or.inr (Or.inl heq)))⟩
        · next sid heq =>
          split
          · next heq2 =>
            exact Or.inl ⟨rfl, rfl, Or.inr (Or.inr (Or.inr (Or.inr (Or.inl heq2))))⟩
          · next aid heq2 =>
            dsimp only
            split
            · next hok =>
              refine Or.inr ⟨sid, aid, heq, heq2, by simpa using h, h2,
                by simpa using h3, hok, rfl, ?_⟩
              simp only [Store.setArea]
              by_cases hsa : sid = aid <;> simp [hsa]
            · next hok =>
              exact Or.inl ⟨rfl, rfl, Or.inr (Or.inr (Or.inr (Or.inr (Or.inr
                ⟨aid, heq2, by simpa using hok⟩))))⟩

/-- The reader on a clean serial copies from the record's inline value. -/
theorem RMPV_clean (st : Store) (pi : PropInfo)
    (h : SERIAL_DIRTY pi.serial = 0) :
    ReadMutablePropertyValue st pi
      = some (pi.serial, pi.value.take (SERIAL_VALUE_LEN pi.serial + 1)) := by
  unfold ReadMutablePropertyValue
  rw [if_neg (by simp [h])]

/-- The reader on a dirty serial copies from the routed area's
dirty-backup buffer. -/
theorem RMPV_dirty (st : Store) (pi : PropInfo) (aid : Nat)
    (h : SERIAL_DIRTY pi.serial ≠ 0) (ha : st.route pi.name = some aid) :
    ReadMutablePropertyValue st pi
      = some (pi.serial,
          (st.areas aid).dirtyBackup.take (SERIAL_VALUE_LEN pi.serial + 1)) := by
  unfold ReadMutablePropertyValue
  rw [if_pos h, ha]

/-- The reader on a dirty serial with a denying router dereferences a null
prop_area: undefined behaviour, rendered `none`. -/
theorem RMPV_dirty_none (st : Store) (pi : PropInfo)
    (h : SERIAL_DIRTY pi.serial ≠ 0) (ha : st.route pi.name = none) :
    ReadMutablePropertyValue st pi = none := by
  unfold ReadMutablePropertyValue
  rw [if_pos h, ha]

/-- C1: Update/Read round-trip: for every initialized store, every mutable
record whose name the router resolves to a non-null area, and every
NUL-free value v with strlen v = len and len < PROP_VALUE_MAX, after
Update(pi, v, len) returns 0 a subsequent Read writes exactly the bytes of
v followed by a NUL terminator into the value buffer and returns len. -/
theorem update_then_read_returns_new_value (st st' : Store)
    (pi pi' : PropInfo) (v : List Nat) (len : Nat) (wantName : Bool)
    (hro : is_read_only pi.name = false)
    (hinit : st.initialized = true)
    (hroute : st.route pi.name ≠ none)
    (hlen : v.length = len) (hz : ∀ b ∈ v, b ≠ 0)
    (hcap : len < PROP_VALUE_MAX)
    (hupd : Update st pi v len = (0, st', pi')) :
    Read st' pi' wantName
      = some (len, v ++ [0],
          if wantName then some (strlcpyOut pi.name PROP_NAME_MAX) else none) := by
  rcases Update_spec st pi v len with ⟨h1, _⟩ | ⟨sid, aid, _, _, _, _, _, hpi, _⟩
  · rw [hupd] at h1
    simp at h1
  · rw [hupd] at hpi
    have hpi' : pi' = { pi with
        serial := (len <<< 24) ||| (((pi.serial ||| 1) + 1) &&& 0xffffff),
        value := strlcpy pi.value v (len + 1) } := hpi
    have hclean : SERIAL_DIRTY pi'.serial = 0 := by
      rw [hpi']
      show ((len <<< 24) ||| (((pi.serial ||| 1) + 1) &&& 0xffffff)) &&& 1 = 0
      rw [Nat.and_one_is_mod]
      exact (updated_serial_spec pi.serial len).1
    have hslen : SERIAL_VALUE_LEN pi'.serial = len := by
      rw [hpi']
      exact (updated_serial_spec pi.serial len).2
    have htake : pi'.value.take (len + 1) = v ++ [0] := by
      have hval : pi'.value = v ++ [0] ++ pi.value.drop (len + 1) := by
        rw [hpi']
        exact strlcpy_exact pi.value v len hlen hz
      have hl2 : (v ++ [0]).length = len + 1 := by simp [hlen]
      rw [hval, ← hl2, List.take_left]
    have hname : pi'.name = pi.name := by rw [hpi']
    unfold Read
    rw [RMPV_clean st' pi' hclean]
    dsimp only
    rw [hslen, htake, hname]

/-- C1 witness: the round-trip at a concrete store, record and value. -/
theorem update_then_read_returns_new_value_witness :
    Read (Update stEx piEx (str "a") 1).2.1 (Update stEx piEx (str "a") 1).2.2
        false
      = some (1, str "a" ++ [0], none) :=
  update_then_read_returns_new_value stEx (Update stEx piEx (str "a") 1).2.1
    piEx (Update stEx piEx (str "a") 1).2.2 (str "a") 1 false
    (by decide) rfl (by decide) (by decide) (by decide) (by decide) rfl

/-- C2: Reader byte-source selection: the reader returns the stable serial
s it observed and copies exactly (s >> 24) + 1 bytes into the value
buffer, from the routed area's dirty-backup buffer when the dirty bit of s
is 1 and from the record's inline value buffer when it is 0. -/
theorem reader_byte_source_selection (st : Store) (pi : PropInfo) (aid : Nat)
    (hb : (st.areas aid).dirtyBackup.length = PROP_VALUE_MAX)
    (hv : pi.value.length = PROP_VALUE_MAX)
    (hl : SERIAL_VALUE_LEN pi.serial < PROP_VALUE_MAX) :
    (SERIAL_DIRTY pi.serial ≠ 0 → st.route pi.name = some aid →
      ReadMutablePropertyValue st pi
        = some (pi.serial,
            (st.areas aid).dirtyBackup.take (SERIAL_VALUE_LEN pi.serial + 1))
      ∧ ((st.areas aid).dirtyBackup.take
            (SERIAL_VALUE_LEN pi.serial + 1)).length
          = SERIAL_VALUE_LEN pi.serial + 1)
    ∧ (SERIAL_DIRTY pi.serial = 0 →
      ReadMutablePropertyValue st pi
        = some (pi.serial, pi.value.take (SERIAL_VALUE_LEN pi.serial + 1))
      ∧ (pi.value.take (SERIAL_VALUE_LEN pi.serial + 1)).length
          = SERIAL_VALUE_LEN pi.serial + 1) := by
  have hPVM : PROP_VALUE_MAX = 92 := rfl
  constructor
  · intro hd ha
    refine ⟨RMPV_dirty st pi aid hd ha, ?_⟩
    rw [List.length_take]
    omega
  · intro hc
    refine ⟨RMPV_clean st pi hc, ?_⟩
    rw [List.length_take]
    omega

/-- C2 witness: the dirty branch at a concrete mid-update record. -/
theorem reader_byte_source_selection_witness :
    ReadMutablePropertyValue stEx piDirty
      = some (piDirty.serial,
          (stEx.areas 0).dirtyBackup.take (SERIAL_VALUE_LEN piDirty.serial + 1))
    ∧ ((stEx.areas 0).dirtyBackup.take
          (SERIAL_VALUE_LEN piDirty.serial + 1)).length
        = SERIAL_VALUE_LEN piDirty.serial + 1 :=
  (reader_byte_source_selection stEx piDirty 0 rfl rfl (by decide)).1
    (by decide) rfl

/-- C10: in the dirty branch the reader dereferences the router's area
with no null check, so the call is defined only under the precondition
that the router resolves the record's name; the lookup-failure branch is
unreachable under that precondition, and the non-dirty branch performs no
router lookup at all (its result does not depend on the store's router). -/
theorem dirty_branch_router_dereference (st st2 : Store) (pi : PropInfo) :
    (SERIAL_DIRTY pi.serial ≠ 0 → st.route pi.name = none →
      ReadMutablePropertyValue st pi = none)
    ∧ (st.route pi.name ≠ none →
      ∃ r, ReadMutablePropertyValue st pi = some r)
    ∧ (SERIAL_DIRTY pi.serial = 0 →
      ReadMutablePropertyValue st pi = ReadMutablePropertyValue st2 pi) := by
  refine ⟨fun hd ha => RMPV_dirty_none st pi hd ha, ?_, ?_⟩
  · intro ha
    by_cases hd : SERIAL_DIRTY pi.serial = 0
    · exact ⟨_, RMPV_clean st pi hd⟩
    · cases hr : st.route pi.name with
      | none => exact absurd hr ha
      | some aid => exact ⟨_, RMPV_dirty st pi aid hd hr⟩
  · intro hc
    rw [RMPV_clean st pi hc, RMPV_clean st2 pi hc]

/-- C10 witness: the dirty branch with a denying router is undefined, and
the clean branch ignores the router entirely. -/
theorem dirty_branch_router_dereference_witness :
    ReadMutablePropertyValue stUninit piDirty = none
    ∧ ReadMutablePropertyValue stEx piEx
        = ReadMutablePropertyValue stUninit piEx :=
  ⟨(dirty_branch_router_dereference stUninit stEx piDirty).1 (by decide) rfl,
   (dirty_branch_router_dereference stEx stUninit piEx).2.2 (by decide)⟩

/-- C5 counterexample: with the serial word dirty (value 1) and stable at
the time of the call, the reader exits its loop and returns that dirty
serial, whose low bit is 1, not 0. -/
theorem reader_returns_dirty_serial_counterexample :
    ReadMutablePropertyValue stEx piDirty = some (1, [7])
    ∧ SERIAL_DIRTY 1 = 1 := by decide

/-- C5 (amended): the serial a reader returns is exactly the serial word
it observed stably, so its dirty bit equals that word's dirty bit: it is 0
whenever the word was clean at the call, but a dirty word observed twice
is returned as-is. -/
theorem reader_serial_matches_observed (st : Store) (pi : PropInfo)
    (s : Nat) (buf : List Nat)
    (h : ReadMutablePropertyValue st pi = some (s, buf)) :
    s = pi.serial
    ∧ SERIAL_DIRTY s = SERIAL_DIRTY pi.serial
    ∧ (SERIAL_DIRTY pi.serial = 0 → SERIAL_DIRTY s = 0) := by
  have hs : s = pi.serial := by
    by_cases hd : SERIAL_DIRTY pi.serial = 0
    · rw [RMPV_clean st pi hd] at h
      simp only [Option.some.injEq, Prod.mk.injEq] at h
      exact h.1.symm
    · cases hr : st.route pi.name with
      | none =>
          rw [RMPV_dirty_none st pi hd hr] at h
          exact absurd h (by simp)
      | some aid =>
          rw [RMPV_dirty st pi aid hd hr] at h
          simp only [Option.some.injEq, Prod.mk.injEq] at h
          exact h.1.symm
  exact ⟨hs, by rw [hs], fun h0 => by rw [hs]; exact h0⟩

/-- C5 witness: a clean read returns the observed serial. -/
theorem reader_serial_matches_observed_witness :
    (0 : Nat) = piEx.serial ∧ SERIAL_DIRTY 0 = SERIAL_DIRTY piEx.serial
    ∧ (SERIAL_DIRTY piEx.serial = 0 → SERIAL_DIRTY 0 = 0) :=
  reader_serial_matches_observed stEx piEx 0 [0] rfl

/-- C3 counterexample: at a quiescent record with serial 0 updated to a
length-1 value, the code stores (1<<24)|2 = 16777218, whereas the claim's
formula (new_len << 24) | ((serial_before_dirty + 1) & 0xffffff) yields
(1<<24)|1 = 16777217. -/
theorem update_final_serial_claim_counterexample :
    (Update stEx piEx (str "a") 1).1 = 0
    ∧ (Update stEx piEx (str "a") 1).2.2.serial = 16777218
    ∧ (1 <<< 24) ||| ((piEx.serial + 1) &&& 0xffffff) = 16777217
    ∧ (16777218 : Nat) ≠ 16777217 := by decide

/-- C3 (amended): for every successful Update the serial stored at the end
of the write protocol equals
(len << 24) | (((serial_before_dirty ||| 1) + 1) & 0xffffff) — the
increment is applied to the serial already carrying the dirty bit — and
this store clears the dirty bit. -/
theorem update_final_serial_formula (st : Store) (pi : PropInfo)
    (v : List Nat) (len : Nat) (h0 : (Update st pi v len).1 = 0) :
    (Update st pi v len).2.2.serial
      = (len <<< 24) ||| (((pi.serial ||| 1) + 1) &&& 0xffffff)
    ∧ SERIAL_DIRTY ((Update st pi v len).2.2.serial) = 0 := by
  rcases Update_spec st pi v len with ⟨h1, _⟩ | ⟨_, _, _, _, _, _, _, hpi, _⟩
  · rw [h1] at h0
    exact absurd h0 (by decide)
  · constructor
    · rw [hpi]
    · rw [hpi]
      show ((len <<< 24) ||| (((pi.serial ||| 1) + 1) &&& 0xffffff)) &&& 1 = 0
      rw [Nat.and_one_is_mod]
      exact (updated_serial_spec pi.serial len).1

/-- C3 witness: the amended serial formula at a concrete update. -/
theorem update_final_serial_formula_witness :
    (Update stEx piEx (str "a") 1).2.2.serial
      = (1 <<< 24) ||| (((piEx.serial ||| 1) + 1) &&& 0xffffff)
    ∧ SERIAL_DIRTY ((Update stEx piEx (str "a") 1).2.2.serial) = 0 :=
  update_final_serial_formula stEx piEx (str "a") 1 rfl

/-- C4 counterexample: Update on the read-only record ro.build.id returns
0, not −1, and changes both its serial and its inline value. -/
theorem read_only_update_counterexample :
    is_read_only piRo.name = true
    ∧ (Update stEx piRo (str "XYZ") 3).1 = 0
    ∧ (Update stEx piRo (str "XYZ") 3).1 ≠ -1
    ∧ (Update stEx piRo (str "XYZ") 3).2.2.serial ≠ piRo.serial
    ∧ (Update stEx piRo (str "XYZ") 3).2.2.value ≠ piRo.value := by decide

/-- C4 (amended): Update performs no read-only check: for a record whose
stored name begins with "ro.", whenever len < PROP_VALUE_MAX, the store is
initialized, the serial area exists and the router resolves the name,
Update returns 0 and installs the new serial exactly as it would for a
mutable record; it does not leave the record unchanged. -/
theorem update_lacks_read_only_check (st : Store) (pi : PropInfo)
    (v : List Nat) (len sid aid : Nat)
    (hro : is_read_only pi.name = true)
    (hcap : len < PROP_VALUE_MAX) (hinit : st.initialized = true)
    (hsid : st.serialAreaId = some sid) (haid : st.route pi.name = some aid) :
    (Update st pi v len).1 = 0
    ∧ (Update st pi v len).2.2.serial
        = (len <<< 24) ||| (((pi.serial ||| 1) + 1) &&& 0xffffff) := by
  rcases Update_spec st pi v len with ⟨_, _, _, hfail⟩ | ⟨_, _, _, _, _, _, h0, hpi, _⟩
  · exfalso
    rcases hfail with hr | hr | hr | hr
    · omega
    · rw [hinit] at hr
      exact absurd hr (by decide)
    · rw [hsid] at hr
      exact Option.noConfusion hr
    · rw [haid] at hr
      exact Option.noConfusion hr
  · exact ⟨h0, by rw [hpi]⟩

/-- C4 witness: the amended behaviour at the concrete ro.build.id record. -/
theorem update_lacks_read_only_check_witness :
    (Update stEx piRo (str "XYZ") 3).1 = 0
    ∧ (Update stEx piRo (str "XYZ") 3).2.2.serial
        = (3 <<< 24) ||| (((piRo.serial ||| 1) + 1) &&& 0xffffff) :=
  update_lacks_read_only_check stEx piRo (str "XYZ") 3 0 0 (by decide)
    (by decide) rfl rfl rfl

/-- C6 counterexample: with the serial area's 32-bit word at 2^32 − 1, a
successful Update stores 0: the area-serial is not incremented by exactly
1 in the natural numbers and strictly decreases, refuting strict increase
and monotonicity as claimed. -/
theorem area_serial_wraparound_counterexample :
    (Update stWrap piEx (str "a") 1).1 = 0
    ∧ ((Update stWrap piEx (str "a") 1).2.1.areas 0).serial = 0
    ∧ (stWrap.areas 0).serial = 4294967295
    ∧ ¬ ((Update stWrap piEx (str "a") 1).2.1.areas 0).serial
        = (stWrap.areas 0).serial + 1
    ∧ ¬ (stWrap.areas 0).serial
        < ((Update stWrap piEx (str "a") 1).2.1.areas 0).serial := by decide

/-- C6 (amended): the serial area's 32-bit word is incremented by exactly
1 modulo 2^32 by every Add or Update that returns 0 and left unchanged by
every Add or Update that returns −1; it therefore strictly increases
except when wrapping from 2^32 − 1 to 0. -/
theorem area_serial_step_mod32 (st : Store) (pi : PropInfo)
    (name v : List Nat) (len namelen valuelen sid : Nat)
    (hsid : st.serialAreaId = some sid) :
    ((Update st pi v len).1 = 0 →
      (((Update st pi v len).2.1).areas sid).serial
        = ((st.areas sid).serial + 1) % 4294967296)
    ∧ ((Update st pi v len).1 = -1 →
      (((Update st pi v len).2.1).areas sid).serial = (st.areas sid).serial)
    ∧ ((Add st name namelen v valuelen).1 = 0 →
      (((Add st name namelen v valuelen).2).areas sid).serial
        = ((st.areas sid).serial + 1) % 4294967296)
    ∧ ((Add st name namelen v valuelen).1 = -1 →
      (((Add st name namelen v valuelen).2).areas sid).serial
        = (st.areas sid).serial) := by
  refine ⟨?_, ?_, ?_, ?_⟩
  · intro h0
    rcases Update_spec st pi v len with ⟨h1, _⟩
      | ⟨sid', aid, hsid', _, _, _, _, _, hser⟩
    · rw [h1] at h0
      exact absurd h0 (by decide)
    · rw [hsid] at hsid'
      injection hsid' with he
      rw [← he] at hser
      exact hser
  · intro h1
    rcases Update_spec st pi v len with ⟨_, hst, _⟩ | ⟨_, _, _, _, _, _, h0, _, _⟩
    · rw [hst]
    · rw [h0] at h1
      exact absurd h1 (by decide)
  · intro h0
    rcases Add_spec st name namelen v valuelen with ⟨h1, _⟩
      | ⟨sid', aid, hsid', _, _, _, _, _, _, hser⟩
    · rw [h1] at h0
      exact absurd h0 (by decide)
    · rw [hsid] at hsid'
      injection hsid' with he
      rw [← he] at hser
      exact hser
  · intro h1
    rcases Add_spec st name namelen v valuelen with ⟨_, hst, _⟩
      | ⟨_, _, _, _, _, _, _, _, h0, _⟩
    · rw [hst]
    · rw [h0] at h1
      exact absurd h1 (by decide)

/-- C6 witness: a successful and a failing Update and Add at concrete
stores, with the serial area's word bumped modulo 2^32 or untouched. -/
theorem area_serial_step_mod32_witness :
    ((Update stEx piEx (str "a") 1).2.1.areas 0).serial
        = ((stEx.areas 0).serial + 1) % 4294967296
    ∧ ((Update stEx piEx (str "a") 92).2.1.areas 0).serial
        = (stEx.areas 0).serial
    ∧ ((Add stEx (str "x") 1 (str "a") 1).2.areas 0).serial
        = ((stEx.areas 0).serial + 1) % 4294967296
    ∧ ((Add stEx (str "x") 1 (str "a") 92).2.areas 0).serial
        = (stEx.areas 0).serial :=
  ⟨(area_serial_step_mod32 stEx piEx (str "x") (str "a") 1 1 1 0 rfl).1 rfl,
   (area_serial_step_mod32 stEx piEx (str "x") (str "a") 92 1 1 0 rfl).2.1 rfl,
   (area_serial_step_mod32 stEx piEx (str "x") (str "a") 1 1 1 0 rfl).2.2.1 rfl,
   (area_serial_step_mod32 stEx piEx (str "x") (str "a") 1 1 92 0 rfl).2.2.2 rfl⟩

/-- C7: Add returns −1 whenever namelen < 1, whenever the store is
uninitialized, and whenever valuelen ≥ PROP_VALUE_MAX for a name that is
not read-only; the value-length cap is not applied to read-only names, and
valuelen = PROP_VALUE_MAX − 1 passes the length check for every name. -/
theorem add_precondition_gates :
    (∀ st name namelen v valuelen, namelen < 1 →
      (Add st name namelen v valuelen).1 = -1)
    ∧ (∀ st name namelen v valuelen, st.initialized = false →
      (Add st name namelen v valuelen).1 = -1)
    ∧ (∀ st name namelen v valuelen, PROP_VALUE_MAX ≤ valuelen →
      is_read_only name = false → (Add st name namelen v valuelen).1 = -1)
    ∧ (∀ name valuelen, is_read_only name = true →
      addValueCapFails name valuelen = false)
    ∧ (∀ name, addValueCapFails name (PROP_VALUE_MAX - 1) = false) := by
  refine ⟨?_, ?_, ?_, ?_, ?_⟩
  · intro st name namelen v valuelen h
    rcases Add_spec st name namelen v valuelen with ⟨h1, _⟩
      | ⟨_, _, _, _, _, hnl, _, _, _, _⟩
    · exact h1
    · exact absurd h hnl
  · intro st name namelen v valuelen h
    rcases Add_spec st name namelen v valuelen with ⟨h1, _⟩
      | ⟨_, _, _, _, _, _, hinit, _, _, _⟩
    · exact h1
    · rw [h] at hinit
      exact absurd hinit (by decide)
  · intro st name namelen v valuelen h1 h2
    rcases Add_spec st name namelen v valuelen with ⟨hm1, _⟩
      | ⟨_, _, _, _, hcapf, _, _, _, _, _⟩
    · exact hm1
    · exfalso
      unfold addValueCapFails at hcapf
      rw [h2] at hcapf
      simp [h1] at hcapf
  · intro name valuelen h
    unfold addValueCapFails
    rw [h]
    simp
  · intro name
    unfold addValueCapFails
    rw [show decide (PROP_VALUE_MAX ≤ PROP_VALUE_MAX - 1) = false from by decide,
      Bool.false_and]

/-- C7 witness: each gate at a concrete call. -/
theorem add_precondition_gates_witness :
    (Add stEx (str "x") 0 (str "v") 1).1 = -1
    ∧ (Add stUninit (str "x") 1 (str "v") 1).1 = -1
    ∧ (Add stEx (str "x") 1 (str "v") 92).1 = -1
    ∧ addValueCapFails (str "ro.x") 200 = false
    ∧ addValueCapFails (str "x") (PROP_VALUE_MAX - 1) = false :=
  ⟨add_precondition_gates.1 stEx (str "x") 0 (str "v") 1 (by decide),
   add_precondition_gates.2.1 stUninit (str "x") 1 (str "v") 1 rfl,
   add_precondition_gates.2.2.1 stEx (str "x") 1 (str "v") 92 (by decide)
     (by decide),
   add_precondition_gates.2.2.2.1 (str "ro.x") 200 (by decide),
   add_precondition_gates.2.2.2.2 (str "x")⟩

/-- C8: code bug.  Wait with pi null on an uninitialized store, or with no
serial area, executes `return -1;` inside a function whose return type is
bool: the −1 converts to true and *new_serial_ptr is never written — so
Wait returns true without having stored a serial differing from
old_serial, contradicting the contract.  The normal paths do satisfy it: a
futex timeout returns false, and a wake on a changed serial stores the new
serial and returns true. -/
theorem wait_error_paths_return_true_without_store :
    Wait stUninit none 0 [] = some (true, none)
    ∧ Wait stNoSerialArea none 0 [] = some (true, none)
    ∧ Wait stEx (some piEx) 5 [⟨-110, 5⟩] = some (false, none)
    ∧ Wait stEx (some piEx) 5 [⟨0, 7⟩] = some (true, some 7) := by decide

theorem substituteForUid_fst (uid : Nat) (name v0 : List Nat) (s0 : Nat) :
    (substituteForUid uid name v0 s0).1 = name := by
  unfold substituteForUid
  split_ifs <;> rfl

theorem substituteForUid_serial (uid : Nat) (name v0 : List Nat) (s0 : Nat) :
    (substituteForUid uid name v0 s0).2.2 = s0 := by
  unfold substituteForUid
  split_ifs <;> rfl

theorem substituteForUid_adbd (uid : Nat) (name v0 : List Nat) (s0 : Nat)
    (huid : uidInRange uid) (h1 : name = str "init.svc.adbd") :
    (substituteForUid uid name v0 s0).2.1 = str "stopped" := by
  unfold substituteForUid
  rw [if_pos huid, if_pos h1]

theorem substituteForUid_configfs (uid : Nat) (name v0 : List Nat) (s0 : Nat)
    (huid : uidInRange uid) (h2 : name = str "sys.usb.configfs") :
    (substituteForUid uid name v0 s0).2.1 = str "0" := by
  unfold substituteForUid
  rw [if_pos huid, if_neg (by rw [h2]; decide), if_pos h2]

theorem substituteForUid_usb (uid : Nat) (name v0 : List Nat) (s0 : Nat)
    (huid : uidInRange uid)
    (h3 : name = str "persist.sys.usb.config" ∨ name = str "sys.usb.config"
      ∨ name = str "sys.usb.state") :
    (substituteForUid uid name v0 s0).2.1 = str "none" := by
  have hn1 : ¬ name = str "init.svc.adbd" := by
    rcases h3 with h | h | h <;> rw [h] <;> decide
  have hn2 : ¬ name = str "sys.usb.configfs" := by
    rcases h3 with h | h | h <;> rw [h] <;> decide
  unfold substituteForUid
  rw [if_pos huid, if_neg hn1, if_neg hn2, if_pos h3]

theorem substituteForUid_id (uid : Nat) (name v0 : List Nat) (s0 : Nat)
    (h : ¬ uidInRange uid
      ∨ (name ≠ str "init.svc.adbd" ∧ name ≠ str "sys.usb.configfs"
        ∧ name ≠ str "persist.sys.usb.config" ∧ name ≠ str "sys.usb.config"
        ∧ name ≠ str "sys.usb.state")) :
    (substituteForUid uid name v0 s0).2.1 = v0 := by
  unfold substituteForUid
  rcases h with h | ⟨h1, h2, h3, h4, h5⟩
  · rw [if_neg h]
  · by_cases huid : uidInRange uid
    · rw [if_pos huid, if_neg h1, if_neg h2,
        if_neg (by rintro (h | h | h); exacts [h3 h, h4 h, h5 h])]
    · rw [if_neg huid]

/-- C9: uid-conditional value substitution in ReadCallback: when the
calling uid lies in [10000,19999] or [90000,99999] the callback receives
"stopped" for init.svc.adbd, "0" for sys.usb.configfs and "none" for
persist.sys.usb.config, sys.usb.config and sys.usb.state, regardless of
the stored value; for every other uid or name it receives the observed
stored value, and in every case the observed serial. -/
theorem read_callback_uid_substitution (st : Store) (uid : Nat)
    (pi : PropInfo) (n v : List Nat) (s : Nat)
    (h : ReadCallback st uid pi = some (n, v, s)) :
    n = pi.name
    ∧ (∃ v0, observedValueSerial st pi = some (v0, s))
    ∧ (uidInRange uid → pi.name = str "init.svc.adbd" → v = str "stopped")
    ∧ (uidInRange uid → pi.name = str "sys.usb.configfs" → v = str "0")
    ∧ (uidInRange uid →
        (pi.name = str "persist.sys.usb.config" ∨ pi.name = str "sys.usb.config"
          ∨ pi.name = str "sys.usb.state") → v = str "none")
    ∧ ((¬ uidInRange uid
        ∨ (pi.name ≠ str "init.svc.adbd" ∧ pi.name ≠ str "sys.usb.configfs"
          ∧ pi.name ≠ str "persist.sys.usb.config"
          ∧ pi.name ≠ str "sys.usb.config" ∧ pi.name ≠ str "sys.usb.state")) →
        observedValueSerial st pi = some (v, s)) := by
  unfold ReadCallback at h
  cases hobs : observedValueSerial st pi with
  | none =>
      rw [hobs] at h
      exact absurd h (by simp)
  | some p =>
      obtain ⟨v0, s0⟩ := p
      rw [hobs] at h
      dsimp only at h
      simp only [Option.some.injEq] at h
      have h1 := congrArg Prod.fst h
      have h2 := congrArg (fun q => q.2.1) h
      have h3 := congrArg (fun q => q.2.2) h
      dsimp only at h1 h2 h3
      rw [substituteForUid_fst] at h1
      rw [substituteForUid_serial] at h3
      subst h3
      refine ⟨h1.symm, ⟨v0, rfl⟩, ?_, ?_, ?_, ?_⟩
      · intro huid hn
        rw [← h2]
        exact substituteForUid_adbd uid pi.name v0 s0 huid hn
      · intro huid hn
        rw [← h2]
        exact substituteForUid_configfs uid pi.name v0 s0 huid hn
      · intro huid hn
        rw [← h2]
        exact substituteForUid_usb uid pi.name v0 s0 huid hn
      · intro hne
        have hv := substituteForUid_id uid pi.name v0 s0 hne
        rw [h2] at hv
        rw [hv]

/-- C9 witness: an in-range uid sees "stopped" for init.svc.adbd while an
out-of-range uid sees the stored value "running". -/
theorem read_callback_uid_substitution_witness :
    (str "stopped" : List Nat) = str "stopped"
    ∧ observedValueSerial stEx piAdbd = some (str "running", 7 <<< 24) :=
  ⟨(read_callback_uid_substitution stEx 10000 piAdbd (str "init.svc.adbd")
      (str "stopped") (7 <<< 24) (by decide)).2.2.1
      (Or.inl ⟨by decide, by decide⟩) rfl,
   (read_callback_uid_substitution stEx 0 piAdbd (str "init.svc.adbd")
      (str "running") (7 <<< 24) (by decide)).2.2.2.2.2 (Or.inl (by decide))⟩

end SystemProperties
